import Mathlib

/-!
Verification development for the SnapVolt e-commerce backend
(src/backend/routes.py, src/backend/database.py).

The development shallowly embeds the two core services of the backend:

* the product query pipeline of `get_products` in routes.py
  (filter by category, sort, paginate, serialize), together with the
  `Product` model of database.py whose list-valued columns `thumbnails`
  and `colors` are stored as JSON-encoded text, and

* the `auth` action dispatcher of routes.py (login / register) together
  with the `User` model of database.py.

Machine-level details are embedded as follows: the Float columns `price`,
`old_price` and `rating` become rationals (every value occurring in the
repository is an exact decimal fraction); the Integer column `reviews`
becomes Int; SQL result sets become Lean lists in stored (rowid) order;
an ORDER BY becomes a stable sort of that list; the users table becomes a
list of `User` records, with insert-and-commit appending to it.
-/

namespace SnapVolt

/-! ### A model of Python json.dumps / json.loads on lists of strings

database.py stores the `thumbnails` and `colors` columns as
`json.dumps(xs)` of a list of strings and reads them back with
`json.loads`. The model below renders the exact fragment of the Python
json module that those calls exercise: documents that are arrays of
strings, encoded with the default options (ensure_ascii=True, separator
the comma-space pair) and decoded by the strict scanner. -/

/-- Lowercase hexadecimal digit characters, as produced by the Python
json encoder's escape formatting. -/
def hexDigitChar (n : Nat) : Char :=
  if n < 10 then Char.ofNat (48 + n) else Char.ofNat (87 + n)

/-- The four lowercase hex digits of a code unit below 0x10000, the
format used by the json encoder's backslash-u escapes. -/
def hex4 (n : Nat) : List Char :=
  [hexDigitChar (n / 4096 % 16), hexDigitChar (n / 256 % 16),
   hexDigitChar (n / 16 % 16), hexDigitChar (n % 16)]

/-- Encoding of a single character inside a JSON string literal,
following the json encoder with ensure_ascii=True: double quote and
backslash are escaped, the five named control escapes are used for
backspace, formfeed, newline, carriage return and tab, every other
character outside the printable ASCII range 0x20..0x7e is written as a
backslash-u escape, and characters above 0xFFFF as a surrogate pair. -/
def encChar (c : Char) : List Char :=
  if c = '"' then ['\\', '"']
  else if c = '\\' then ['\\', '\\']
  else if c = '\n' then ['\\', 'n']
  else if c = '\r' then ['\\', 'r']
  else if c = '\t' then ['\\', 't']
  else if c = Char.ofNat 8 then ['\\', 'b']
  else if c = Char.ofNat 12 then ['\\', 'f']
  else if c.toNat < 0x20 then '\\' :: 'u' :: hex4 c.toNat
  else if c.toNat < 0x7f then [c]
  else if c.toNat < 0x10000 then '\\' :: 'u' :: hex4 c.toNat
  else ('\\' :: 'u' :: hex4 (0xD800 + (c.toNat - 0x10000) / 0x400)) ++
       ('\\' :: 'u' :: hex4 (0xDC00 + (c.toNat - 0x10000) % 0x400))

/-- Encoding of the characters of a string body, character by character. -/
def escChars : List Char → List Char
  | [] => []
  | c :: cs => encChar c ++ escChars cs

/-- The element list of json.dumps of a list of strings: each element in
double quotes, elements joined by a comma followed by a space (the
default separator). -/
def encItems : List String → List Char
  | [] => []
  | [s] => '"' :: (escChars s.data ++ ['"'])
  | s :: ss => '"' :: (escChars s.data ++ '"' :: ',' :: ' ' :: encItems ss)

/-- Model of json.dumps applied to a list of strings. -/
def dumpsStrList (xs : List String) : String :=
  ⟨'[' :: (encItems xs ++ [']'])⟩

/-- Value of one hexadecimal digit as accepted by the json string
scanner (both letter cases). -/
def hexVal (c : Char) : Option Nat :=
  if 48 ≤ c.toNat ∧ c.toNat ≤ 57 then some (c.toNat - 48)
  else if 97 ≤ c.toNat ∧ c.toNat ≤ 102 then some (c.toNat - 87)
  else if 65 ≤ c.toNat ∧ c.toNat ≤ 70 then some (c.toNat - 55)
  else none

/-- Value of a four-digit hexadecimal escape. -/
def hex4val (a b c d : Char) : Option Nat :=
  match hexVal a, hexVal b, hexVal c, hexVal d with
  | some x, some y, some z, some w => some (4096 * x + 256 * y + 16 * z + w)
  | _, _, _, _ => none

/-- Prepends a decoded character to the result of scanning the remainder
of a string literal. -/
def consStr (c : Char) : Option (List Char × List Char) → Option (List Char × List Char)
  | none => none
  | some (s, r) => some (c :: s, r)

/-- Decoding of the optional low-surrogate escape that may follow an
escaped high surrogate: CPython combines an immediately following
backslash-u escape in the low-surrogate range with the pending high
surrogate v into one astral code point. Any other continuation would be
kept by Python as a lone surrogate code unit, which no Lean Char can
represent, so the model fails there; the encoder never produces such
input. -/
def parseLowSur (v : Nat) : List Char → Option (Char × List Char)
  | x :: y :: a2 :: b2 :: c3 :: d2 :: r3 =>
    if x = '\\' ∧ y = 'u' then
      match hex4val a2 b2 c3 d2 with
      | none => none
      | some w =>
        if 0xDC00 ≤ w ∧ w < 0xE000 then
          some (Char.ofNat (0x10000 + (v - 0xD800) * 0x400 + (w - 0xDC00)), r3)
        else none
    else none
  | _ => none

/-- Decoding of a backslash-u escape, applied to the input after the u:
four hex digits, combined with a following low-surrogate escape when
they encode a high surrogate. -/
def parseU : List Char → Option (Char × List Char)
  | a :: b :: c2 :: d :: r2 =>
    match hex4val a b c2 d with
    | none => none
    | some v =>
      if v < 0xD800 ∨ 0xE000 ≤ v then some (Char.ofNat v, r2)
      else if v < 0xDC00 then parseLowSur v r2
      else none
  | _ => none

/-- Decoding of one backslash escape by the json string scanner, applied
to the input after the backslash; it returns the decoded character and
the remaining input. -/
def parseEsc : List Char → Option (Char × List Char)
  | [] => none
  | e :: r1 =>
    if e = '"' then some ('"', r1)
    else if e = '\\' then some ('\\', r1)
    else if e = '/' then some ('/', r1)
    else if e = 'b' then some (Char.ofNat 8, r1)
    else if e = 'f' then some (Char.ofNat 12, r1)
    else if e = 'n' then some ('\n', r1)
    else if e = 'r' then some ('\r', r1)
    else if e = 't' then some ('\t', r1)
    else if e = 'u' then parseU r1
    else none

/-- Model of the json string scanner in strict mode, applied to the
input after the opening double quote; it returns the decoded characters
together with the input following the closing double quote. The fuel
argument only bounds the recursion depth: at least one input character
is consumed per decoded character, so any fuel above the input length
gives the scanner's behaviour. -/
def parseStr : Nat → List Char → Option (List Char × List Char)
  | 0, _ => none
  | fuel + 1, l =>
    match l with
    | [] => none
    | c :: r =>
      if c = '"' then some ([], r)
      else if c = '\\' then
        match parseEsc r with
        | none => none
        | some (d, r1) => consStr d (parseStr fuel r1)
      else if c.toNat < 0x20 then none
      else consStr c (parseStr fuel r)

/-- JSON whitespace, as skipped by the decoder between tokens. -/
def isJsonWs (c : Char) : Bool := c = ' ' || c = '\t' || c = '\n' || c = '\r'

/-- Skips JSON whitespace. -/
def skipWs (l : List Char) : List Char := l.dropWhile isJsonWs

/-- Model of the json array scanner specialised to arrays of strings,
applied to the input after the opening bracket of a nonempty array. The
fuel argument only bounds the recursion depth; one unit is spent per
element, so any fuel of at least the element count gives the scanner's
behaviour. An element that is not a string makes the model fail, where
Python would produce a value of another type; this application only ever
stores arrays of strings. This function is the step after one element:
a closing bracket ends the array, a comma continues with the recursive
element scan rec. -/
def parseItemsAfter (rec : List Char → Option (List String × List Char))
    (s : String) : List Char → Option (List String × List Char)
  | ']' :: r2 => some ([s], r2)
  | ',' :: r2 =>
    match rec r2 with
    | none => none
    | some (xs, r3) => some (s :: xs, r3)
  | _ => none

/-- The element loop of the array scanner: scan one string element, then
dispatch on the next delimiter via parseItemsAfter. -/
def parseItems : Nat → List Char → Option (List String × List Char)
  | 0, _ => none
  | fuel + 1, l =>
    match skipWs l with
    | '"' :: r =>
      match parseStr (r.length + 1) r with
      | none => none
      | some (s, r1) => parseItemsAfter (parseItems fuel) (String.mk s) (skipWs r1)
    | _ => none

/-- Model of json.loads restricted to documents that are arrays of
strings, the only document shape this application ever stores. -/
def jsonLoadsStrList (s : String) : Option (List String) :=
  match skipWs s.data with
  | '[' :: r =>
    match skipWs r with
    | ']' :: r2 => if skipWs r2 = [] then some [] else none
    | _ =>
      match parseItems (r.length + 1) r with
      | none => none
      | some (xs, rest) => if skipWs rest = [] then some xs else none
  | _ => none

/-! ### Roundtrip of the JSON fragment -/

/-- The code point of a Char is below the surrogate range or above it. -/
theorem char_toNat_valid (c : Char) :
    c.toNat < 0xD800 ∨ (0xDFFF < c.toNat ∧ c.toNat < 0x110000) := c.valid

/-- Scanning a hex digit undoes printing one. -/
theorem hexVal_hexDigitChar : ∀ n < 16, hexVal (hexDigitChar n) = some n := by decide

/-- Scanning four hex digits undoes printing a code unit. -/
theorem hex4val_hex4 (v : Nat) (hv : v < 0x10000) :
    hex4val (hexDigitChar (v / 4096 % 16)) (hexDigitChar (v / 256 % 16))
      (hexDigitChar (v / 16 % 16)) (hexDigitChar (v % 16)) = some v := by
  rw [hex4val, hexVal_hexDigitChar _ (Nat.mod_lt _ (by omega)),
    hexVal_hexDigitChar _ (Nat.mod_lt _ (by omega)),
    hexVal_hexDigitChar _ (Nat.mod_lt _ (by omega)),
    hexVal_hexDigitChar _ (Nat.mod_lt _ (by omega))]
  simp only [Option.some.injEq]
  omega

/-- Dispatch of the u escape inside the escape scanner. -/
theorem parseEsc_u (r1 : List Char) : parseEsc ('u' :: r1) = parseU r1 := rfl

/-- The u-escape scanner on four printed hex digits reaches the decoded
code unit. -/
theorem parseU_hex4 (v : Nat) (hv : v < 0x10000) (r2 : List Char) :
    parseU (hex4 v ++ r2) =
      (if v < 0xD800 ∨ 0xE000 ≤ v then some (Char.ofNat v, r2)
       else if v < 0xDC00 then parseLowSur v r2
       else none) := by
  simp only [hex4, List.cons_append, List.nil_append, parseU]
  rw [hex4val_hex4 v hv]

/-- The escape scanner undoes a backslash-u escape of a code unit
outside the surrogate range. -/
theorem parseEsc_unicode (v : Nat) (hv : v < 0x10000)
    (hs : v < 0xD800 ∨ 0xE000 ≤ v) (r : List Char) :
    parseEsc ('u' :: (hex4 v ++ r)) = some (Char.ofNat v, r) := by
  rw [parseEsc_u, parseU_hex4 v hv, if_pos hs]

/-- The low-surrogate scanner undoes the printed low half of a
surrogate pair. -/
theorem parseLowSur_hex4 (v w : Nat) (hw : w < 0x10000)
    (hr : 0xDC00 ≤ w ∧ w < 0xE000) (r : List Char) :
    parseLowSur v ('\\' :: 'u' :: (hex4 w ++ r)) =
      some (Char.ofNat (0x10000 + (v - 0xD800) * 0x400 + (w - 0xDC00)), r) := by
  simp only [hex4, List.cons_append, List.nil_append, parseLowSur]
  rw [if_pos ⟨trivial, trivial⟩, hex4val_hex4 w hw]
  simp [hr]

/-- The escape scanner combines the surrogate-pair escape of an astral
code point back into that code point. -/
theorem parseEsc_surrogate (n : Nat) (h1 : 0x10000 ≤ n) (h2 : n < 0x110000)
    (r : List Char) :
    parseEsc ('u' :: (hex4 (0xD800 + (n - 0x10000) / 0x400) ++
      ('\\' :: 'u' :: (hex4 (0xDC00 + (n - 0x10000) % 0x400) ++ r))))
      = some (Char.ofNat n, r) := by
  have hv1 : ¬((0xD800 + (n - 0x10000) / 0x400 : Nat) < 0xD800 ∨
      (0xE000 : Nat) ≤ 0xD800 + (n - 0x10000) / 0x400) := by omega
  have hv2 : (0xD800 + (n - 0x10000) / 0x400 : Nat) < 0xDC00 := by omega
  have harg : 0x10000 + (0xD800 + (n - 0x10000) / 0x400 - 0xD800) * 0x400 +
      (0xDC00 + (n - 0x10000) % 0x400 - 0xDC00) = n := by omega
  rw [parseEsc_u, parseU_hex4 _ (by omega), if_neg hv1, if_pos hv2,
    parseLowSur_hex4 _ _ (by omega) (by omega), harg]

/-- One step of the string scanner at its closing quote. -/
theorem parseStr_cons_quote (f : Nat) (r : List Char) :
    parseStr (f + 1) ('"' :: r) = some ([], r) := rfl

/-- One step of the string scanner at a backslash. -/
theorem parseStr_cons_backslash (f : Nat) (r : List Char) :
    parseStr (f + 1) ('\\' :: r) =
      match parseEsc r with
      | none => none
      | some (d, r1) => consStr d (parseStr f r1) := rfl

/-- The string scanner consumes the encoding of one character and
decodes it back. -/
theorem parseStr_encChar (c : Char) (f : Nat) (R : List Char) :
    parseStr (f + 1) (encChar c ++ R) = consStr c (parseStr f R) := by
  have hval := char_toNat_valid c
  by_cases hq : c = '"'
  · subst hq; rfl
  by_cases hb : c = '\\'
  · subst hb; rfl
  by_cases hn : c = '\n'
  · subst hn; rfl
  by_cases hr : c = '\r'
  · subst hr; rfl
  by_cases ht : c = '\t'
  · subst ht; rfl
  by_cases hbs : c = Char.ofNat 8
  · subst hbs; rfl
  by_cases hff : c = Char.ofNat 12
  · subst hff; rfl
  by_cases hc1 : c.toNat < 0x20
  · have hs : c.toNat < 0xD800 ∨ (0xE000 : Nat) ≤ c.toNat := by omega
    rw [encChar, if_neg hq, if_neg hb, if_neg hn, if_neg hr, if_neg ht,
      if_neg hbs, if_neg hff, if_pos hc1, List.cons_append, List.cons_append,
      parseStr_cons_backslash, parseEsc_unicode c.toNat (by omega) hs,
      Char.ofNat_toNat]
  by_cases hc2 : c.toNat < 0x7f
  · rw [encChar, if_neg hq, if_neg hb, if_neg hn, if_neg hr, if_neg ht,
      if_neg hbs, if_neg hff, if_neg hc1, if_pos hc2, List.singleton_append]
    simp only [parseStr]
    rw [if_neg hq, if_neg hb, if_neg hc1]
  by_cases hc3 : c.toNat < 0x10000
  · have hs : c.toNat < 0xD800 ∨ (0xE000 : Nat) ≤ c.toNat := by omega
    rw [encChar, if_neg hq, if_neg hb, if_neg hn, if_neg hr, if_neg ht,
      if_neg hbs, if_neg hff, if_neg hc1, if_neg hc2, if_pos hc3,
      List.cons_append, List.cons_append, parseStr_cons_backslash,
      parseEsc_unicode c.toNat hc3 hs, Char.ofNat_toNat]
  · rw [encChar, if_neg hq, if_neg hb, if_neg hn, if_neg hr, if_neg ht,
      if_neg hbs, if_neg hff, if_neg hc1, if_neg hc2, if_neg hc3]
    simp only [List.append_assoc, List.cons_append, List.nil_append]
    rw [parseStr_cons_backslash, parseEsc_surrogate c.toNat (by omega) (by omega),
      Char.ofNat_toNat]

/-- The string scanner undoes the character-by-character encoder, given
fuel above the number of encoded characters. -/
theorem parseStr_escChars (s : List Char) :
    ∀ (rest : List Char) (fuel : Nat), s.length < fuel →
      parseStr fuel (escChars s ++ '"' :: rest) = some (s, rest) := by
  induction s with
  | nil =>
    intro rest fuel h
    cases fuel with
    | zero => omega
    | succ f => exact parseStr_cons_quote f rest
  | cons c s ih =>
    intro rest fuel h
    cases fuel with
    | zero => omega
    | succ f =>
      rw [escChars, List.append_assoc, parseStr_encChar,
        ih rest f (by simp at h; omega), consStr]


theorem skipWs_cons_not (c : Char) (l : List Char) (h : isJsonWs c = false) :
    skipWs (c :: l) = c :: l := by simp [skipWs, List.dropWhile_cons, h]

theorem skipWs_cons_ws (c : Char) (l : List Char) (h : isJsonWs c = true) :
    skipWs (c :: l) = skipWs l := by simp [skipWs, List.dropWhile_cons, h]

theorem string_mk_data (s : String) : String.mk s.data = s := rfl

set_option maxHeartbeats 1000000 in
theorem one_le_length_encChar (c : Char) : 1 ≤ (encChar c).length := by
  rw [encChar]
  split_ifs <;>
    simp only [hex4, List.length_cons, List.length_append, List.length_nil] <;>
    omega

theorem length_le_escChars (s : List Char) : s.length ≤ (escChars s).length := by
  induction s with
  | nil => simp [escChars]
  | cons c s ih =>
    have := one_le_length_encChar c
    simp only [escChars, List.length_append, List.length_cons]
    omega

theorem length_le_encItems (xs : List String) : xs.length ≤ (encItems xs).length := by
  induction xs with
  | nil => simp [encItems]
  | cons s ss ih =>
    cases ss with
    | nil => simp [encItems]
    | cons x xs2 =>
      simp only [encItems, List.length_cons, List.length_append] at *
      omega

theorem parseItems_ws (f : Nat) (c : Char) (t : List Char) (h : isJsonWs c = true) :
    parseItems f (c :: t) = parseItems f t := by
  cases f with
  | zero => rfl
  | succ f => simp only [parseItems, skipWs_cons_ws c t h]

theorem parseItems_encItems (xs : List String) :
    ∀ (s : String) (rest : List Char) (fuel : Nat), xs.length < fuel →
      parseItems fuel (encItems (s :: xs) ++ ']' :: rest) = some (s :: xs, rest) := by
  induction xs with
  | nil =>
    intro s rest fuel h
    cases fuel with
    | zero => omega
    | succ f =>
      have hsh : encItems [s] ++ ']' :: rest
          = '"' :: (escChars s.data ++ '"' :: ']' :: rest) := by simp [encItems]
      have hlen : s.data.length < (escChars s.data ++ '"' :: ']' :: rest).length + 1 := by
        have := length_le_escChars s.data
        simp only [List.length_append, List.length_cons]
        omega
      rw [hsh]
      simp only [parseItems]
      rw [skipWs_cons_not _ _ (by decide)]
      simp only [parseStr_escChars s.data (']' :: rest) _ hlen]
      rw [skipWs_cons_not _ _ (by decide)]
      simp [parseItemsAfter]
  | cons x xs2 ih =>
    intro s rest fuel h
    cases fuel with
    | zero => omega
    | succ f =>
      have hsh : encItems (s :: x :: xs2) ++ ']' :: rest
          = '"' :: (escChars s.data ++ '"' :: ',' :: ' ' :: (encItems (x :: xs2) ++ ']' :: rest)) := by
        simp [encItems]
      have hlen : s.data.length <
          (escChars s.data ++ '"' :: ',' :: ' ' :: (encItems (x :: xs2) ++ ']' :: rest)).length + 1 := by
        have := length_le_escChars s.data
        simp only [List.length_append, List.length_cons]
        omega
      rw [hsh]
      simp only [parseItems]
      rw [skipWs_cons_not _ _ (by decide)]
      simp only [parseStr_escChars s.data _ _ hlen]
      rw [skipWs_cons_not _ _ (by decide)]
      simp only [parseItemsAfter]
      have hrec := ih x rest f (by simp at h; omega)
      rw [parseItems_ws f ' ' _ (by decide), hrec, string_mk_data]

theorem jsonLoads_step (X : List Char) :
    jsonLoadsStrList (String.mk ('[' :: X)) =
      (match skipWs X with
       | ']' :: r2 => if skipWs r2 = [] then some [] else none
       | _ =>
         match parseItems (X.length + 1) X with
         | none => none
         | some (xs, rest) => if skipWs rest = [] then some xs else none) := rfl

theorem jsonLoads_step2 (X t2 : List Char) (hsk : skipWs X = '"' :: t2) :
    jsonLoadsStrList (String.mk ('[' :: X)) =
      (match parseItems (X.length + 1) X with
       | none => none
       | some (xs, rest) => if skipWs rest = [] then some xs else none) := by
  rw [jsonLoads_step, hsk]
  rfl

theorem jsonLoads_dumps (xs : List String) :
    jsonLoadsStrList (dumpsStrList xs) = some xs := by
  cases xs with
  | nil => decide
  | cons s ss =>
    obtain ⟨t, ht⟩ : ∃ t, encItems (s :: ss) = '"' :: t := by
      cases ss <;> exact ⟨_, rfl⟩
    have hfuel : ss.length < (encItems (s :: ss) ++ [']']).length + 1 := by
      have h1 := length_le_encItems (s :: ss)
      simp only [List.length_append, List.length_cons] at *
      omega
    have hsk : skipWs (encItems (s :: ss) ++ [']']) = '"' :: (t ++ [']']) := by
      rw [ht, List.cons_append, skipWs_cons_not _ _ (by decide)]
    have hitems := parseItems_encItems ss s [] ((encItems (s :: ss) ++ [']']).length + 1) hfuel
    show jsonLoadsStrList (String.mk ('[' :: (encItems (s :: ss) ++ [']']))) = some (s :: ss)
    rw [jsonLoads_step2 _ _ hsk, hitems]
    rfl

/-! ### The Product model (database.py) and the product query pipeline
(get_products in routes.py) -/

/-- Truthiness of the optional list arguments of the Product initializer:
Python treats both None and the empty list as falsy, so both store the
literal text of an empty array. -/
def optListTruthy : Option (List String) → Bool
  | none => false
  | some [] => false
  | some (_ :: _) => true

/-- The products table row: one field per column of the Product model.
The Float columns price, old_price and rating are embedded as rationals
(every value in the repository is an exact decimal fraction); the
Integer column reviews as Int; the Text columns thumbnails and colors
hold the JSON-encoded form exactly as stored. -/
structure Product where
  id : String
  name : String
  category : String
  price : ℚ
  old_price : Option ℚ
  image : String
  thumbnails : String
  description : String
  mock_reviews_text : Option String
  rating : ℚ
  reviews : Int
  colors : String
  is_new : Bool
  deriving DecidableEq

/-- The Product initializer: thumbnails and colors arrive as optional
lists and are stored as json.dumps text, with the empty-array text for a
falsy argument. -/
def Product.init (id name category : String) (price : ℚ) (image description : String)
    (rating : ℚ) (reviews : Int) (old_price : Option ℚ)
    (thumbnails : Option (List String)) (mock_reviews_text : Option String)
    (colors : Option (List String)) (is_new : Bool) : Product :=
  { id := id, name := name, category := category, price := price,
    old_price := old_price, image := image,
    thumbnails := if optListTruthy thumbnails then dumpsStrList (thumbnails.getD []) else "[]",
    description := description, mock_reviews_text := mock_reviews_text,
    rating := rating, reviews := reviews,
    colors := if optListTruthy colors then dumpsStrList (colors.getD []) else "[]",
    is_new := is_new }

/-- The serialized view of a Product, with the external camelCase field
names and the sequence-valued fields expanded to literal lists. -/
structure ProductView where
  id : String
  name : String
  category : String
  price : ℚ
  oldPrice : Option ℚ
  image : String
  thumbnails : List String
  description : String
  mockReviewsText : Option String
  rating : ℚ
  reviews : Int
  colors : List String
  isNew : Bool
  deriving DecidableEq

/-- Product.serialize: converts the stored JSON text of thumbnails and
colors back to lists, and an empty stored text (falsy in Python) to the
empty list. Python raises on stored text that is not valid JSON; that
case is unreachable for rows built by the initializer, whose stored text
always decodes, so the model defaults it to the empty list. -/
def Product.serialize (p : Product) : ProductView :=
  { id := p.id, name := p.name, category := p.category, price := p.price,
    oldPrice := p.old_price, image := p.image,
    thumbnails := if p.thumbnails = "" then [] else (jsonLoadsStrList p.thumbnails).getD [],
    description := p.description, mockReviewsText := p.mock_reviews_text,
    rating := p.rating, reviews := p.reviews,
    colors := if p.colors = "" then [] else (jsonLoadsStrList p.colors).getD [],
    isNew := p.is_new }

/-- Model of str.lower applied to a query parameter. Char.toLower
lowercases the ASCII letters; every value this backend compares a
lowered parameter against is ASCII. -/
def strLower (s : String) : String := String.mk (s.data.map Char.toLower)

/-- The category filter of get_products: applied only when the lowered
parameter differs from the sentinel all, and comparing the stored
category to the lowered parameter exactly (the stored side is not
lowered; SQLite TEXT equality is byte equality). -/
def filterCategory (category_filter : String) (ps : List Product) : List Product :=
  if category_filter ≠ "all" then ps.filter (fun p => p.category == category_filter) else ps

/-- Lexicographic strict order on character lists by code point; on
UTF-8 text this is exactly the byte order SQLite BINARY collation uses. -/
def charListLt : List Char → List Char → Bool
  | [], [] => false
  | [], _ :: _ => true
  | _ :: _, [] => false
  | a :: as, b :: bs => a < b || (a == b && charListLt as bs)

/-- The BINARY collation order on stored text. -/
def strLt (a b : String) : Bool := charListLt a.data b.data

/-- Comparator of ORDER BY id DESC; SQLite compares TEXT byte-wise. -/
def newestLe (a b : Product) : Bool := strLt b.id a.id || b.id == a.id

/-- Comparator of ORDER BY price ASC. -/
def priceLowLe (a b : Product) : Bool := decide (a.price ≤ b.price)

/-- Comparator of ORDER BY price DESC. -/
def priceHighLe (a b : Product) : Bool := decide (b.price ≤ a.price)

/-- Comparator of ORDER BY reviews DESC, rating DESC. -/
def popularLe (a b : Product) : Bool :=
  decide (b.reviews < a.reviews) || (a.reviews == b.reviews && decide (b.rating ≤ a.rating))

/-- Stable insertion into an ordered list. -/
def insertLe (le : Product → Product → Bool) (a : Product) : List Product → List Product
  | [] => [a]
  | b :: bs => if le a b then a :: b :: bs else b :: insertLe le a bs

/-- The engine's ORDER BY, embedded as a stable insertion sort of the
stored row order (SQL leaves the order of ties unspecified; the stable
sort fixes one realization). -/
def sortByLe (le : Product → Product → Bool) (ps : List Product) : List Product :=
  ps.foldr (insertLe le) []

/-- The sort dispatch of get_products. The if chain mirrors the elif
chain of routes.py: for a value that matches no recognized name, no
order_by is applied at all, so rows keep their stored (rowid) order -
despite the comment in routes.py announcing a fallback to popular. -/
def applySort (sort_by : String) (ps : List Product) : List Product :=
  if sort_by = "newest" then sortByLe newestLe ps
  else if sort_by = "price-low" then sortByLe priceLowLe ps
  else if sort_by = "price-high" then sortByLe priceHighLe ps
  else if sort_by = "popular" then sortByLe popularLe ps
  else ps

/-- The JSON body returned by GET /products. -/
structure ProductsResponse where
  products : List ProductView
  total : Nat
  limit : Nat
  offset : Nat
  deriving DecidableEq

/-- Model of get_products in routes.py. The four query parameters are
optional with the defaults of request.args.get; limit and offset arrive
already parsed (a malformed number raises at the boundary, outside this
service), and the embedding takes their non-negative domain. The store
argument is the products table in stored (rowid) order. -/
def get_products (store : List Product) (categoryArg sortArg : Option String)
    (limitArg offsetArg : Option Nat) : ProductsResponse :=
  let category_filter := strLower (categoryArg.getD "all")
  let sort_by := strLower (sortArg.getD "popular")
  let limit := limitArg.getD 8
  let offset := offsetArg.getD 0
  let query := filterCategory category_filter store
  let query2 := applySort sort_by query
  let total_products := query2.length
  let products := (query2.drop offset).take limit
  { products := products.map Product.serialize,
    total := total_products,
    limit := limit,
    offset := offset }

/-! ### The User model (database.py) and the auth dispatcher
(auth in routes.py) -/

/-- Modelled from the spec: the werkzeug.security password hashing used
by User.set_password and User.check_password is an external library, not
part of this repository. The spec requires a one-way hash with a
per-password salt whose verification re-derives and compares, never
decrypts. The derived key is modelled as a fixed deterministic mixing
of salt and password into a 64-bit accumulator; one-wayness itself is a
cryptographic property outside the embedding. -/
def deriveKey (salt password : String) : Nat :=
  (salt.data ++ '$' :: password.data).foldl
    (fun a c => (a * 131 + c.toNat + 7) % 18446744073709551616) 5381

/-- The stored password hash: the salt together with the derived key,
the two components werkzeug encodes into its hash string. -/
structure PWHash where
  salt : String
  key : Nat
  deriving DecidableEq

/-- Modelled from the spec: werkzeug generate_password_hash, with the
salt supplied explicitly in place of the library's internal randomness. -/
def generate_password_hash (salt password : String) : PWHash :=
  ⟨salt, deriveKey salt password⟩

/-- Modelled from the spec: werkzeug check_password_hash re-derives the
key from the stored salt and the candidate password and compares. -/
def check_password_hash (h : PWHash) (password : String) : Bool :=
  h.key == deriveKey h.salt password

/-- The users table row. The auto-assigned integer primary key is
produced by the storage layer and read nowhere in routes.py, so it is
not modelled. -/
structure User where
  name : String
  email : String
  password_hash : PWHash
  deriving DecidableEq

/-- The User initializer: set_password hashes the password at
construction; the salt argument stands for the fresh salt the hashing
library draws. No plaintext field exists on the record. -/
def User.init (name email password salt : String) : User :=
  ⟨name, email, generate_password_hash salt password⟩

/-- dict.get of a string field on the parsed JSON body, embedded as an
association list of the string-valued fields this endpoint reads. -/
def bodyGet (d : List (String × String)) (k : String) : Option String :=
  (d.find? (fun kv => kv.fst == k)).map (fun kv => kv.snd)

/-- Python falsiness of an optional string field: absent and empty are
falsy. -/
def falsyStr : Option String → Bool
  | none => true
  | some s => s == ""

/-- The user payload of a successful login: email and name only. -/
structure AuthUserView where
  email : String
  name : String
  deriving DecidableEq

/-- A response of the auth endpoint: HTTP status, message, and the
optional user payload. -/
structure AuthResponse where
  status : Nat
  message : String
  user : Option AuthUserView
  deriving DecidableEq

/-- Model of auth in routes.py. The action query parameter is optional;
data is the parsed JSON body, none standing for a missing or unparseable
body, and the Python truthiness test if not data also catches the empty
object, modelled by the isEmpty test. The salt argument supplies the
randomness of registration's password hash. The users argument is the
users table in stored order; the result pairs the response with the
table after the request (session add plus commit append a row). -/
def auth (action : Option String) (data : Option (List (String × String)))
    (salt : String) (users : List User) : AuthResponse × List User :=
  match data with
  | none => (⟨400, "Invalid JSON data.", none⟩, users)
  | some d =>
    if d.isEmpty then (⟨400, "Invalid JSON data.", none⟩, users)
    else
      let email := bodyGet d "email"
      let password := bodyGet d "password"
      if falsyStr email || falsyStr password then
        (⟨400, "Email and password are required.", none⟩, users)
      else
        let e := email.getD ""
        let p := password.getD ""
        match action with
        | some "login" =>
          match users.find? (fun u => u.email == e) with
          | some u =>
            if check_password_hash u.password_hash p then
              (⟨200, "Login successful!", some ⟨u.email, u.name⟩⟩, users)
            else
              (⟨401, "Invalid email or password.", none⟩, users)
          | none => (⟨401, "Invalid email or password.", none⟩, users)
        | some "register" =>
          let nm := bodyGet d "name"
          if falsyStr nm then
            (⟨400, "Name is required for registration.", none⟩, users)
          else
            match users.find? (fun u => u.email == e) with
            | some _ => (⟨409, "User with this email already exists.", none⟩, users)
            | none =>
              (⟨201, "Registration successful! Please login.", none⟩,
                users ++ [User.init (nm.getD "") e p salt])
        | _ => (⟨400, "Invalid authentication action.", none⟩, users)

/-! ### The seed catalog (init_db in database.py) -/

/-- The fixed 12-item catalog that init_db inserts, in insertion order,
each row built through the Product initializer exactly as the seeding
loop does. -/
def initial_products : List Product := [
  Product.init "p1" "Ultra Protective Case" "cases" (mkRat 2999 100)
    "https://placehold.co/400x300/A78BFA/FFFFFF?text=Case+1"
    "Experience ultimate protection with our Ultra Protective Case. Designed with multi-layer defense, it safeguards your phone from drops, scratches, and daily wear. Its slim profile ensures it fits comfortably in your hand and pocket."
    (mkRat 48 10) 125 (some (mkRat 3999 100))
    (some ["https://placehold.co/100x100/A78BFA/FFFFFF?text=Case+1a",
      "https://placehold.co/100x100/A78BFA/FFFFFF?text=Case+1b",
      "https://placehold.co/100x100/A78BFA/FFFFFF?text=Case+1c",
      "https://placehold.co/100x100/A78BFA/FFFFFF?text=Case+1d"])
    (some "This case is amazing! My phone survived a really bad fall, not a scratch. A bit bulky, but worth it for the protection. Highly recommend!")
    (some ["#000000", "#60A5FA", "#DC2626"]) true,
  Product.init "p2" "Tempered Glass Screen Protector" "protectors" (mkRat 1999 100)
    "https://placehold.co/400x300/818CF8/FFFFFF?text=Protector+1"
    "Our premium tempered glass screen protector offers edge-to-edge coverage and superior scratch resistance. Maintain crystal-clear display quality and touch sensitivity."
    (mkRat 45 10) 98 none
    (some ["https://placehold.co/100x100/818CF8/FFFFFF?text=Prot+1a",
      "https://placehold.co/100x100/818CF8/FFFFFF?text=Prot+1b",
      "https://placehold.co/100x100/818CF8/FFFFFF?text=Prot+1c",
      "https://placehold.co/100x100/818CF8/FFFFFF?text=Prot+1d"])
    (some "Easy to install, but a small bubble formed on the side. Otherwise, my screen feels well protected. Good value for money.")
    (some []) false,
  Product.init "p3" "Fast Wireless Charger Pad" "chargers" (mkRat 3499 100)
    "https://placehold.co/400x300/C084FC/FFFFFF?text=Charger+1"
    "Charge your phone quickly and efficiently with our Fast Wireless Charger Pad. Compatible with all Qi-enabled devices, it features overheat protection and a sleek, compact design."
    (mkRat 47 10) 150 none
    (some ["https://placehold.co/100x100/C084FC/FFFFFF?text=Charger+1a",
      "https://placehold.co/100x100/C084FC/FFFFFF?text=Charger+1b",
      "https://placehold.co/100x100/C084FC/FFFFFF?text=Charger+1c",
      "https://placehold.co/100x100/C084FC/FFFFFF?text=Charger+1d"])
    (some "Charges super fast! The design is sleek and doesn't take up much space. However, it sometimes makes a faint buzzing sound, which is a bit annoying at night.")
    (some ["#000000", "#E5E7EB"]) true,
  Product.init "p4" "Universal Car Mount" "mounts" (mkRat 2499 100)
    "https://placehold.co/400x300/A78BFA/FFFFFF?text=Mount+1"
    "Secure your phone on the go with our Universal Car Mount. Its strong suction cup and adjustable grip ensure a stable hold on any dashboard or windshield. Perfect for navigation and hands-free calls."
    (mkRat 42 10) 70 none
    (some ["https://placehold.co/100x100/A78BFA/FFFFFF?text=Mount+1a",
      "https://placehold.co/100x100/A78BFA/FFFFFF?text=Mount+1b",
      "https://placehold.co/100x100/A78BFA/FFFFFF?text=Mount+1c",
      "https://placehold.co/100x100/A78BFA/FFFFFF?text=Mount+1d"])
    (some "The suction cup doesn't hold well in hot weather; it falls off frequently. When it does stay, it's very sturdy, but the adhesive needs improvement.")
    (some []) false,
  Product.init "p5" "Clear Hybrid Case" "cases" (mkRat 2299 100)
    "https://placehold.co/400x300/818CF8/FFFFFF?text=Case+2"
    "Showcase your phone's original design with our Clear Hybrid Case. Made from durable, transparent materials, it offers excellent protection without hiding your device's aesthetics."
    (mkRat 46 10) 80 none
    (some ["https://placehold.co/100x100/818CF8/FFFFFF?text=Case+2a",
      "https://placehold.co/100x100/818CF8/FFFFFF?text=Case+2b",
      "https://placehold.co/100x100/818CF8/FFFFFF?text=Case+2c",
      "https://placehold.co/100x100/818CF8/FFFFFF?text=Case+2d"])
    (some "Fits perfectly and really highlights my phone's color. It does yellow a bit over time, which is a common issue with clear cases, but it protects well.")
    (some []) false,
  Product.init "p6" "Privacy Screen Protector" "protectors" (mkRat 2599 100)
    "https://placehold.co/400x300/C084FC/FFFFFF?text=Protector+2"
    "Keep your screen content private from prying eyes with our Privacy Screen Protector. It offers a narrow viewing angle, ensuring only you can see what's on your display."
    (mkRat 43 10) 60 none
    (some ["https://placehold.co/100x100/C084FC/FFFFFF?text=Prot+2a",
      "https://placehold.co/100x100/C084FC/FFFFFF?text=Prot+2b",
      "https://placehold.co/100x100/C084FC/FFFFFF?text=Prot+2c",
      "https://placehold.co/100x100/C084FC/FFFFFF?text=Prot+2d"])
    (some "The privacy feature works great, but it darkens the screen a lot, even when looking straight on. It's a trade-off, I guess. Installation was tricky.")
    (some []) false,
  Product.init "p7" "Multi-Port Wall Charger" "chargers" (mkRat 2999 100)
    "https://placehold.co/400x300/A78BFA/FFFFFF?text=Charger+2"
    "Charge multiple devices simultaneously with our Multi-Port Wall Charger. Equipped with fast-charging technology and multiple USB ports, it's perfect for families and travelers."
    (mkRat 47 10) 110 none
    (some ["https://placehold.co/100x100/A78BFA/FFFFFF?text=Charger+2a",
      "https://placehold.co/100x100/A78BFA/FFFFFF?text=Charger+2b",
      "https://placehold.co/100x100/A78BFA/FFFFFF?text=Charger+2c",
      "https://placehold.co/100x100/A78BFA/FFFFFF?text=Charger+2d"])
    (some "This charger is a lifesaver for travel! All my devices charge at once. It gets a little warm, but nothing concerning. Very satisfied.")
    (some ["#000000"]) false,
  Product.init "p8" "Magnetic Air Vent Mount" "mounts" (mkRat 1899 100)
    "https://placehold.co/400x300/818CF8/FFFFFF?text=Mount+2"
    "Effortlessly attach and detach your phone with our Magnetic Air Vent Mount. Its powerful magnets provide a secure grip, and the compact design keeps your dashboard clutter-free."
    (mkRat 44 10) 55 none
    (some ["https://placehold.co/100x100/818CF8/FFFFFF?text=Mount+2a",
      "https://placehold.co/100x100/818CF8/FFFFFF?text=Mount+2b",
      "https://placehold.co/100x100/818CF8/FFFFFF?text=Mount+2c",
      "https://placehold.co/100x100/818CF8/FFFFFF?text=Mount+2d"])
    (some "Great magnet, phone stays put even on bumpy roads. The only downside is it blocks some airflow from my vent, which is annoying on a hot day.")
    (some []) true,
  Product.init "p9" "Slim Fit Case" "cases" (mkRat 1999 100)
    "https://placehold.co/400x300/C084FC/FFFFFF?text=Case+3"
    "Our Slim Fit Case offers minimalist protection without adding bulk. Enjoy a comfortable grip and easy access to all ports and buttons."
    (mkRat 45 10) 90 none
    (some ["https://placehold.co/100x100/C084FC/FFFFFF?text=Case+3a",
      "https://placehold.co/100x100/C084FC/FFFFFF?text=Case+3b",
      "https://placehold.co/100x100/C084FC/FFFFFF?text=Case+3c",
      "https://placehold.co/100x100/C084FC/FFFFFF?text=Case+3d"])
    (some "Perfectly thin, barely notice it's there. Protection seems basic for real drops, but great for scratch prevention. Love the feel.")
    (some ["#000000", "#6B7280", "#D1D5DB"]) false,
  Product.init "p10" "Matte Screen Protector" "protectors" (mkRat 1599 100)
    "https://placehold.co/400x300/A78BFA/FFFFFF?text=Protector+3"
    "Reduce glare and fingerprints with our Matte Screen Protector. Perfect for outdoor use, it provides a smooth, anti-glare surface while protecting your screen."
    (mkRat 41 10) 45 none
    (some ["https://placehold.co/100x100/A78BFA/FFFFFF?text=Prot+3a",
      "https://placehold.co/100x100/A78BFA/FFFFFF?text=Prot+3b",
      "https://placehold.co/100x100/A78BFA/FFFFFF?text=Prot+3c",
      "https://placehold.co/100x100/A78BFA/FFFFFF?text=Prot+3d"])
    (some "Anti-glare works wonders outdoors! Fingerprints are almost non-existent. My only complaint is it makes the screen slightly grainy, but it's a minor trade-off.")
    (some []) false,
  Product.init "p11" "Portable Power Bank" "chargers" (mkRat 4599 100)
    "https://placehold.co/400x300/818CF8/FFFFFF?text=Power+Bank+1"
    "Never run out of battery with our high-capacity Portable Power Bank. It features fast charging for multiple devices and a compact design for easy portability."
    (mkRat 48 10) 180 (some (mkRat 5500 100))
    (some ["https://placehold.co/100x100/818CF8/FFFFFF?text=PB+1a",
      "https://placehold.co/100x100/818CF8/FFFFFF?text=PB+1b",
      "https://placehold.co/100x100/818CF8/FFFFFF?text=PB+1c",
      "https://placehold.co/100x100/818CF8/FFFFFF?text=PB+1d"])
    (some "This power bank is a lifesaver! I can charge my phone multiple times. It's a bit heavy, but given the capacity, that's expected. Absolutely essential for long trips.")
    (some ["#000000", "#FFFFFF"]) true,
  Product.init "p12" "Bike Phone Mount" "mounts" (mkRat 2899 100)
    "https://placehold.co/400x300/C084FC/FFFFFF?text=Bike+Mount+1"
    "Securely attach your phone to your bike handlebars with our sturdy Bike Phone Mount. Enjoy easy access to navigation and fitness apps during your rides."
    (mkRat 40 10) 30 none
    (some ["https://placehold.co/100x100/C084FC/FFFFFF?text=Bike+M+1a",
      "https://placehold.co/100x100/C084FC/FFFFFF?text=Bike+M+1b",
      "https://placehold.co/100x100/C084FC/FFFFFF?text=Bike+M+1c",
      "https://placehold.co/100x100/C084FC/FFFFFF?text=Bike+M+1d"])
    (some "Holds my phone securely on my mountain bike, even over rough terrain. Installation was a breeze. A bit pricey but feels very durable.")
    (some []) false]

/-! ### Lemmas about the query pipeline -/

theorem length_insertLe (le : Product → Product → Bool) (a : Product) :
    ∀ l : List Product, (insertLe le a l).length = l.length + 1 := by
  intro l
  induction l with
  | nil => rfl
  | cons b bs ih => by_cases h : le a b <;> simp [insertLe, h, ih]

theorem length_sortByLe (le : Product → Product → Bool) (ps : List Product) :
    (sortByLe le ps).length = ps.length := by
  induction ps with
  | nil => rfl
  | cons p ps ih =>
    simp only [sortByLe, List.foldr_cons] at *
    rw [length_insertLe, ih, List.length_cons]

theorem length_applySort (s : String) (ps : List Product) :
    (applySort s ps).length = ps.length := by
  rw [applySort]
  split_ifs <;> simp [length_sortByLe]

/-! ### Claims about the product listing -/

/-- C3: the total field of the listing is the count of records matching
the category filter, computed before pagination, so it does not depend
on limit or offset. -/
theorem C3_total_is_prepagination_count (store : List Product)
    (categoryArg sortArg : Option String) (l1 o1 l2 o2 : Option Nat) :
    (get_products store categoryArg sortArg l1 o1).total
      = (filterCategory (strLower (categoryArg.getD "all")) store).length
    ∧ (get_products store categoryArg sortArg l1 o1).total
      = (get_products store categoryArg sortArg l2 o2).total := by
  constructor <;> simp [get_products, length_applySort]

/-- C9: pagination composes with filter and sort - the returned page is
the contiguous slice from offset of length limit of the
filtered-then-sorted sequence; on the 12-item seed catalog with category
all, offset 8 and limit 8 return the 4 remaining items with total 12,
and the defaults return the first 8 items of the popular order with
total 12. -/
theorem C9_pagination_composes :
    (∀ (store : List Product) (categoryArg sortArg : Option String) (l o : Nat),
      strLower (sortArg.getD "popular")
          ∈ (["newest", "price-low", "price-high", "popular"] : List String) →
      (get_products store categoryArg sortArg (some l) (some o)).products
        = (((applySort (strLower (sortArg.getD "popular"))
              (filterCategory (strLower (categoryArg.getD "all")) store)).drop o).take l).map
            Product.serialize)
    ∧ ((get_products initial_products (some "all") none (some 8) (some 8)).products.map
          ProductView.id = ["p6", "p8", "p10", "p12"]
      ∧ (get_products initial_products (some "all") none (some 8) (some 8)).total = 12)
    ∧ ((get_products initial_products none none none none).products.map ProductView.id
          = ["p11", "p3", "p1", "p7", "p2", "p9", "p5", "p4"]
      ∧ (get_products initial_products none none none none).total = 12) := by
  refine ⟨fun store c s l o _ => ?_, ⟨by decide, by decide⟩, ⟨by decide, by decide⟩⟩
  simp [get_products]

theorem C9_pagination_composes_witness :
    strLower ((some "newest" : Option String).getD "popular")
      ∈ (["newest", "price-low", "price-high", "popular"] : List String)
    ∧ (get_products initial_products (some "cases") (some "newest") (some 2) (some 1)).products
      = (((applySort (strLower ((some "newest" : Option String).getD "popular"))
            (filterCategory (strLower ((some "cases" : Option String).getD "all"))
              initial_products)).drop 1).take 2).map Product.serialize :=
  ⟨by decide,
    C9_pagination_composes.1 initial_products (some "cases") (some "newest") 2 1 (by decide)⟩

/-- C1: the code comment of routes.py and the spec announce the popular
ordering as the fallback for an unrecognized sort value, but the elif
chain applies no order_by at all in that case, so the rows come back in
stored order; on the seed catalog the unrecognized value rating yields
the insertion order p1..p12 while popular yields the reviews-descending
order, and the two listings differ. -/
theorem C1_unrecognized_sort_is_stored_order :
    (get_products initial_products none (some "rating") (some 12) none).products.map
        ProductView.id
      = ["p1", "p2", "p3", "p4", "p5", "p6", "p7", "p8", "p9", "p10", "p11", "p12"]
    ∧ (get_products initial_products none (some "popular") (some 12) none).products.map
        ProductView.id
      = ["p11", "p3", "p1", "p7", "p2", "p9", "p5", "p4", "p6", "p8", "p10", "p12"]
    ∧ (get_products initial_products none (some "rating") (some 12) none).products
      ≠ (get_products initial_products none (some "popular") (some 12) none).products := by
  refine ⟨by decide, by decide, fun hc => ?_⟩
  have h1 : (get_products initial_products none (some "rating") (some 12) none).products.map
      ProductView.id
      = ["p1", "p2", "p3", "p4", "p5", "p6", "p7", "p8", "p9", "p10", "p11", "p12"] := by decide
  have h2 : (get_products initial_products none (some "popular") (some 12) none).products.map
      ProductView.id
      = ["p11", "p3", "p1", "p7", "p2", "p9", "p5", "p4", "p6", "p8", "p10", "p12"] := by decide
  rw [hc] at h1
  exact absurd (h1.symm.trans h2) (by decide)

/-- The row used by the C4 counterexample: its stored category carries
an uppercase letter. -/
def mixedCaseProduct : Product :=
  Product.init "x1" "Mixed Case Demo" "Cases" (mkRat 10 1) "img" "demo"
    (mkRat 5 1) 1 none none none none false

/-- C4 counterexample: the parameter cases is a letter-case variant of
the stored category Cases, so the claim requires the row to be
selected; the code lowercases only the parameter and compares exactly,
so the listing is empty. -/
theorem C4_counterexample_case_sensitive_store :
    strLower "cases" = strLower "Cases"
    ∧ (get_products [mixedCaseProduct] (some "cases") none none none).products = []
    ∧ (get_products [mixedCaseProduct] (some "cases") none none none).total = 0 :=
  ⟨by decide, by decide, by decide⟩

/-- C4 amended: category filtering lowercases the parameter only - the
listing restricts to rows whose stored category equals the lowered
parameter exactly, any parameter whose lowercase form is the sentinel
all (also the default when the parameter is absent) disables filtering,
and two parameters with the same lowercase form produce identical
listings. -/
theorem C4_amended_parameter_lowercased :
    (∀ (store : List Product) (categoryArg sortArg : Option String) (l o : Option Nat),
      (get_products store categoryArg sortArg l o).products
        = (((applySort (strLower (sortArg.getD "popular"))
              (if strLower (categoryArg.getD "all") = "all" then store
               else store.filter
                 (fun p => p.category == strLower (categoryArg.getD "all")))).drop
            (o.getD 0)).take (l.getD 8)).map Product.serialize)
    ∧ (∀ (store : List Product) (c1 c2 : String) (sortArg : Option String) (l o : Option Nat),
        strLower c1 = strLower c2 →
        get_products store (some c1) sortArg l o = get_products store (some c2) sortArg l o) := by
  constructor
  · intro store c s l o
    by_cases hall : strLower (c.getD "all") = "all" <;>
      simp [get_products, filterCategory, hall]
  · intro store c1 c2 s l o h
    simp [get_products, h]

theorem C4_amended_parameter_lowercased_witness :
    strLower "CASES" = strLower "CasEs"
    ∧ get_products initial_products (some "CASES") none none none
      = get_products initial_products (some "CasEs") none none none :=
  ⟨by decide,
    C4_amended_parameter_lowercased.2 initial_products "CASES" "CasEs" none none none (by decide)⟩

/-! ### Lemmas about the auth dispatcher -/

theorem bodyGet_ne_nil {d : List (String × String)} {k v : String}
    (h : bodyGet d k = some v) : d.isEmpty = false := by
  cases d with
  | nil => simp [bodyGet] at h
  | cons kv d2 => rfl

theorem find?_email_eq_none (users : List User) (e : String)
    (h : e ∉ users.map User.email) :
    users.find? (fun u => u.email == e) = none := by
  rw [List.find?_eq_none]
  intro u hu
  simp only [beq_iff_eq]
  intro he
  exact h (List.mem_map.mpr ⟨u, hu, he⟩)

theorem exists_find?_email (users : List User) (e : String)
    (h : e ∈ users.map User.email) :
    ∃ u, users.find? (fun u => u.email == e) = some u := by
  rcases List.mem_map.mp h with ⟨u, hu, he⟩
  cases hf : users.find? (fun v => v.email == e) with
  | some u2 => exact ⟨u2, rfl⟩
  | none =>
    have := List.find?_eq_none.mp hf u hu
    simp [he] at this

/-! ### Claims about the auth dispatcher -/

/-- C10: a body that parses to the empty JSON object is rejected with
status 400 and the message Invalid JSON data., identically to a missing
or unparseable body, for every action value - the Python truthiness test
treats the empty object like no body at all. -/
theorem C10_empty_object_rejected_as_invalid_json (action : Option String)
    (salt : String) (users : List User) :
    auth action (some []) salt users = (⟨400, "Invalid JSON data.", none⟩, users)
    ∧ auth action (some []) salt users = auth action none salt users :=
  ⟨rfl, rfl⟩

/-- C6: for every action and every request whose body lacks a non-empty
email or a non-empty password, the endpoint answers 400 with a message,
the response does not depend on the user store, and the store is
unchanged - the validation failure is decided before any store access. -/
theorem C6_missing_credentials_rejected_before_store (action : Option String)
    (data : Option (List (String × String))) (salt : String)
    (users users2 : List User)
    (h : (falsyStr (data.bind fun d => bodyGet d "email")
         || falsyStr (data.bind fun d => bodyGet d "password")) = true) :
    (auth action data salt users).1.status = 400
    ∧ (auth action data salt users).1.message ≠ ""
    ∧ (auth action data salt users).1 = (auth action data salt users2).1
    ∧ (auth action data salt users).2 = users := by
  cases data with
  | none =>
    have hm : ("Invalid JSON data." : String) ≠ "" := by decide
    exact ⟨rfl, hm, rfl, rfl⟩
  | some d =>
    by_cases hde : d.isEmpty = true
    · refine ⟨?_, ?_, ?_, ?_⟩ <;> simp [auth, hde]
    · have hde2 : d.isEmpty = false := by simpa using hde
      have h2 : (falsyStr (bodyGet d "email") || falsyStr (bodyGet d "password")) = true := by
        simpa using h
      refine ⟨?_, ?_, ?_, ?_⟩ <;> simp [auth, hde2, h2]

theorem C6_missing_credentials_rejected_before_store_witness :
    (falsyStr ((some [("email", "a@b.c")] : Option (List (String × String))).bind
        fun d => bodyGet d "email")
      || falsyStr ((some [("email", "a@b.c")] : Option (List (String × String))).bind
        fun d => bodyGet d "password")) = true
    ∧ (auth (some "login") (some [("email", "a@b.c")]) "s"
        [User.init "Kate" "kate@example.com" "pw" "s1"]).1.status = 400
    ∧ (auth (some "login") (some [("email", "a@b.c")]) "s"
        [User.init "Kate" "kate@example.com" "pw" "s1"]).2
      = [User.init "Kate" "kate@example.com" "pw" "s1"] :=
  ⟨by decide,
    (C6_missing_credentials_rejected_before_store (some "login") (some [("email", "a@b.c")])
      "s" [User.init "Kate" "kate@example.com" "pw" "s1"] [] (by decide)).1,
    (C6_missing_credentials_rejected_before_store (some "login") (some [("email", "a@b.c")])
      "s" [User.init "Kate" "kate@example.com" "pw" "s1"] [] (by decide)).2.2.2⟩

/-- C7: login failures are indistinguishable - whenever no stored user
carries the supplied email, or one does but its stored hash does not
verify against the supplied password, the endpoint returns the one
literal 401 response with the message Invalid email or password., so the
response never reveals which check failed. -/
theorem C7_login_failures_indistinguishable (users : List User)
    (d : List (String × String)) (salt e p : String)
    (he : bodyGet d "email" = some e) (he2 : e ≠ "")
    (hp : bodyGet d "password" = some p) (hp2 : p ≠ "")
    (hfail : ∀ u ∈ users, u.email = e → check_password_hash u.password_hash p = false) :
    auth (some "login") (some d) salt users
      = (⟨401, "Invalid email or password.", none⟩, users) := by
  have hde := bodyGet_ne_nil he
  cases hf : users.find? (fun u => u.email == e) with
  | none => simp [auth, hde, he, hp, falsyStr, he2, hp2, hf]
  | some u =>
    have hu1 : u ∈ users := List.mem_of_find?_eq_some hf
    have hu2 : u.email = e := by simpa using List.find?_some hf
    have hc := hfail u hu1 hu2
    simp [auth, hde, he, hp, falsyStr, he2, hp2, hf, hc]

theorem C7_login_failures_indistinguishable_witness :
    (auth (some "login") (some [("email", "kate@example.com"), ("password", "wrong")]) "s2"
        [User.init "Kate" "kate@example.com" "right" "s1"]
      = (⟨401, "Invalid email or password.", none⟩,
         [User.init "Kate" "kate@example.com" "right" "s1"]))
    ∧ (auth (some "login") (some [("email", "ghost@example.com"), ("password", "pw")]) "s2" []
      = (⟨401, "Invalid email or password.", none⟩, [])) :=
  ⟨C7_login_failures_indistinguishable [User.init "Kate" "kate@example.com" "right" "s1"]
      [("email", "kate@example.com"), ("password", "wrong")] "s2" "kate@example.com" "wrong"
      rfl (by decide) rfl (by decide) (by decide),
    C7_login_failures_indistinguishable []
      [("email", "ghost@example.com"), ("password", "pw")] "s2" "ghost@example.com" "pw"
      rfl (by decide) rfl (by decide) (by decide)⟩

/-- C8: registering a fresh email succeeds with 201 and appends exactly
one user whose stored field is the salted one-way hash of the password
(no plaintext field exists on the record), a subsequent login with the
same email and password succeeds with 200 returning exactly the email
and name and no hash, and verification re-derives from the stored hash:
checking the hash of p against p succeeds. -/
theorem C8_register_login_roundtrip (users : List User)
    (d : List (String × String)) (salt n e p : String)
    (he : bodyGet d "email" = some e) (he2 : e ≠ "")
    (hp : bodyGet d "password" = some p) (hp2 : p ≠ "")
    (hn : bodyGet d "name" = some n) (hn2 : n ≠ "")
    (hfresh : e ∉ users.map User.email) :
    auth (some "register") (some d) salt users
      = (⟨201, "Registration successful! Please login.", none⟩,
         users ++ [User.init n e p salt])
    ∧ auth (some "login") (some d) salt (users ++ [User.init n e p salt])
      = (⟨200, "Login successful!", some ⟨e, n⟩⟩, users ++ [User.init n e p salt])
    ∧ check_password_hash (generate_password_hash salt p) p = true := by
  have hde := bodyGet_ne_nil he
  have hf := find?_email_eq_none users e hfresh
  have hchk : check_password_hash (generate_password_hash salt p) p = true := by
    simp [check_password_hash, generate_password_hash]
  refine ⟨?_, ?_, hchk⟩
  · simp [auth, hde, he, hp, hn, falsyStr, he2, hp2, hn2, hf]
  · simp [auth, hde, he, hp, falsyStr, he2, hp2, hf, User.init, generate_password_hash,
      check_password_hash]

theorem C8_register_login_roundtrip_witness :
    auth (some "register")
        (some [("email", "new@example.com"), ("password", "pw"), ("name", "Nia")]) "s1" []
      = (⟨201, "Registration successful! Please login.", none⟩,
         [User.init "Nia" "new@example.com" "pw" "s1"])
    ∧ auth (some "login")
        (some [("email", "new@example.com"), ("password", "pw"), ("name", "Nia")]) "s1"
        [User.init "Nia" "new@example.com" "pw" "s1"]
      = (⟨200, "Login successful!", some ⟨"new@example.com", "Nia"⟩⟩,
         [User.init "Nia" "new@example.com" "pw" "s1"])
    ∧ check_password_hash (generate_password_hash "s1" "pw") "pw" = true := by
  have h := C8_register_login_roundtrip []
    [("email", "new@example.com"), ("password", "pw"), ("name", "Nia")]
    "s1" "Nia" "new@example.com" "pw" rfl (by decide) rfl (by decide) rfl (by decide)
    (by decide)
  exact ⟨h.1, h.2.1, h.2.2⟩

/-- C2: a well-formed register request whose email already belongs to a
stored user is answered 409 with the conflict message and leaves the
user table unchanged, and every auth operation preserves pairwise
distinctness of stored emails. -/
theorem C2_duplicate_register_conflict_and_uniqueness :
    (∀ (users : List User) (d : List (String × String)) (salt e p n : String),
      bodyGet d "email" = some e → e ≠ "" →
      bodyGet d "password" = some p → p ≠ "" →
      bodyGet d "name" = some n → n ≠ "" →
      (users.map User.email).Nodup →
      e ∈ users.map User.email →
      auth (some "register") (some d) salt users
        = (⟨409, "User with this email already exists.", none⟩, users))
    ∧ (∀ (action : Option String) (data : Option (List (String × String)))
        (salt : String) (users : List User),
        (users.map User.email).Nodup →
        ((auth action data salt users).2.map User.email).Nodup) := by
  constructor
  · intro users d salt e p n he he2 hp hp2 hn hn2 _ hmem
    have hde := bodyGet_ne_nil he
    obtain ⟨u, hf⟩ := exists_find?_email users e hmem
    simp [auth, hde, he, hp, hn, falsyStr, he2, hp2, hn2, hf]
  · intro action data salt users hnd
    cases data with
    | none => simpa [auth] using hnd
    | some d =>
      by_cases hde : d.isEmpty = true
      · simpa [auth, hde] using hnd
      · have hde2 : d.isEmpty = false := by simpa using hde
        by_cases hcred : (falsyStr (bodyGet d "email")
            || falsyStr (bodyGet d "password")) = true
        · simpa [auth, hde2, hcred] using hnd
        · have hcred2 : (falsyStr (bodyGet d "email")
              || falsyStr (bodyGet d "password")) = false := by simpa using hcred
          simp only [auth, hde2, hcred2, Bool.false_eq_true, if_false]
          split
          · split
            · split
              · simpa using hnd
              · simpa using hnd
            · simpa using hnd
          · by_cases hnm : falsyStr (bodyGet d "name") = true
            · simpa [hnm] using hnd
            · have hnm2 : falsyStr (bodyGet d "name") = false := by simpa using hnm
              simp only [hnm2, Bool.false_eq_true, if_false]
              cases hf : users.find? (fun u => u.email == (bodyGet d "email").getD "") with
              | some u => simpa [hf] using hnd
              | none =>
                have hnotmem := List.find?_eq_none.mp hf
                simp only [hf, List.map_append, List.nodup_append]
                refine ⟨hnd, by simp, ?_⟩
                intro a ha hb
                rcases List.mem_map.mp ha with ⟨u, hu, hua⟩
                have hb2 : a = (bodyGet d "email").getD "" := by
                  simpa [User.init] using hb
                have := hnotmem u hu
                simp [hua, hb2] at this
          · simpa using hnd

theorem C2_duplicate_register_conflict_and_uniqueness_witness :
    "kate@example.com" ∈ [User.init "Kate" "kate@example.com" "pw" "s1"].map User.email
    ∧ auth (some "register")
        (some [("email", "kate@example.com"), ("password", "pw2"), ("name", "K2")]) "s2"
        [User.init "Kate" "kate@example.com" "pw" "s1"]
      = (⟨409, "User with this email already exists.", none⟩,
         [User.init "Kate" "kate@example.com" "pw" "s1"])
    ∧ ((auth (some "register")
        (some [("email", "fresh@example.com"), ("password", "pw3"), ("name", "K3")]) "s3"
        [User.init "Kate" "kate@example.com" "pw" "s1"]).2.map User.email).Nodup :=
  ⟨by decide,
    C2_duplicate_register_conflict_and_uniqueness.1
      [User.init "Kate" "kate@example.com" "pw" "s1"]
      [("email", "kate@example.com"), ("password", "pw2"), ("name", "K2")]
      "s2" "kate@example.com" "pw2" "K2" rfl (by decide) rfl (by decide) rfl (by decide)
      (by decide) (by decide),
    C2_duplicate_register_conflict_and_uniqueness.2 (some "register")
      (some [("email", "fresh@example.com"), ("password", "pw3"), ("name", "K3")]) "s3"
      [User.init "Kate" "kate@example.com" "pw" "s1"] (by decide)⟩

/-- C5: round-trip of the sequence-valued columns - constructing a
Product with a given optional list of thumbnails (resp. colors) stores
decodable text whose decoding is exactly the given list (empty for an
absent or empty argument), and serialization returns that literal
ordered list; the serialized value is always a sequence, never null. -/
theorem C5_sequence_fields_roundtrip (id name category image description : String)
    (price rating : ℚ) (reviews : Int) (old_price : Option ℚ)
    (mock_reviews_text : Option String) (is_new : Bool)
    (thumbs colors : Option (List String)) :
    jsonLoadsStrList (Product.init id name category price image description rating reviews
        old_price thumbs mock_reviews_text colors is_new).thumbnails
      = some (thumbs.getD [])
    ∧ (Product.init id name category price image description rating reviews
        old_price thumbs mock_reviews_text colors is_new).serialize.thumbnails
      = thumbs.getD []
    ∧ jsonLoadsStrList (Product.init id name category price image description rating reviews
        old_price thumbs mock_reviews_text colors is_new).colors
      = some (colors.getD [])
    ∧ (Product.init id name category price image description rating reviews
        old_price thumbs mock_reviews_text colors is_new).serialize.colors
      = colors.getD [] := by
  have key : ∀ o : Option (List String),
      jsonLoadsStrList (if optListTruthy o then dumpsStrList (o.getD []) else "[]")
        = some (o.getD []) := by
    intro o
    match o with
    | none => decide
    | some [] => decide
    | some (x :: xs) => simpa [optListTruthy] using jsonLoads_dumps (x :: xs)
  have hne : ∀ o : Option (List String),
      (if optListTruthy o then dumpsStrList (o.getD []) else "[]") ≠ "" := by
    intro o
    match o with
    | none => decide
    | some [] => decide
    | some (x :: xs) =>
      simp only [optListTruthy, if_pos]
      intro hcontra
      have hd := congrArg String.data hcontra
      simp [dumpsStrList] at hd
  refine ⟨key thumbs, ?_, key colors, ?_⟩
  · simp only [Product.serialize, Product.init]
    rw [if_neg (hne thumbs), key thumbs, Option.getD_some]
  · simp only [Product.serialize, Product.init]
    rw [if_neg (hne colors), key colors, Option.getD_some]

end SnapVolt
